import Mathlib

/-!
Verification development for the `rust_verifier` repository (an independent
verifier for a Swiss e-voting election).

The Rust sources are shallowly embedded: pure functions become Lean
functions, stateful result accumulation becomes explicit list building in
push order, fallible operations return `Except`, and code paths that panic
in Rust (`todo!()`, out-of-bounds indexing, `unwrap_tally` on a setup
directory) are modelled with the `PanicOr` sum type.  Big integers
(`BigUint`) are modelled as `Nat`.
-/

/-- A verification event of the newer generation of the code base
(`result.rs`): either an error (the check could not evaluate) or a
failure (the check evaluated and the data violates the property).
The message string is kept, so that context preservation can be stated. -/
inductive VerificationEvent where
  | error (message : String)
  | failure (message : String)
deriving DecidableEq

/-- True exactly on failure events. -/
def VerificationEvent.isFailure : VerificationEvent → Bool
  | .failure _ => true
  | .error _ => false

/-- Result of a Rust computation that may panic (`todo!()`, slice indexing
out of bounds, `panic!`): either a normal value or a panic. -/
inductive PanicOr (α : Type) where
  | panics
  | ok (val : α)
deriving DecidableEq

/- ===================== C1 : runner classification ======================
Embedding of `src/src/verification/verification.rs`. -/

/-- Status of a verification (`VerificationStatus` in `verification.rs`). -/
inductive VerificationStatus where
  | stopped
  | running
  | finished
deriving DecidableEq

/-- Period of a verification. -/
inductive VerificationPeriod where
  | setup
  | tally
deriving DecidableEq

/-- Category of a verification. -/
inductive VerificationCategory where
  | authenticity
  | consistency
  | completness
  | integrity
  | evidence
deriving DecidableEq

/-- Metadata of a verification (`VerificationMetaData`). -/
structure VerificationMetaData where
  id : String
  nr : String
  name : String
  period : VerificationPeriod
  category : VerificationCategory

/-- The old-generation result accumulator (`VerificationResult` in
`verification.rs`): separate vectors of errors and failures.  Events are
modelled by their message strings. -/
structure VerificationResult where
  errors : List String
  failures : List String

/-- `VerificationResult::new`. -/
def VerificationResult.new : VerificationResult := ⟨[], []⟩

/-- `VerificationResult::push_error`. -/
def VerificationResult.push_error (r : VerificationResult) (e : String) : VerificationResult :=
  { r with errors := r.errors ++ [e] }

/-- `VerificationResult::push_failure`. -/
def VerificationResult.push_failure (r : VerificationResult) (f : String) : VerificationResult :=
  { r with failures := r.failures ++ [f] }

/-- `VerificationResult::has_errors`: `Some(!self.errors.is_empty())`. -/
def VerificationResult.has_errors (r : VerificationResult) : Option Bool :=
  some (!r.errors.isEmpty)

/-- `VerificationResult::has_failures`: `Some(!self.failures.is_empty())`. -/
def VerificationResult.has_failures (r : VerificationResult) : Option Bool :=
  some (!r.failures.isEmpty)

/-- `VerificationResult::is_ok`:
`Some(!self.has_errors().unwrap() && !self.has_failures().unwrap())`.
The `unwrap` calls are total here because both accessors always return
`Some`; the `match` mirrors that. -/
def VerificationResult.is_ok (r : VerificationResult) : Option Bool :=
  match r.has_errors, r.has_failures with
  | some e, some f => some (!e && !f)
  | _, _ => none

/-- A verification of the old generation (`Verification` in
`verification.rs`), generic over the directory type `D`.  The verification
function mutates the result in place in Rust; here it is state passing. -/
structure Verification (D : Type) where
  meta_data : VerificationMetaData
  status : VerificationStatus
  verification_fn : D → VerificationResult → VerificationResult
  result : VerificationResult

/-- `Verification::new`: status `Stopped`, empty result. -/
def Verification.new {D : Type} (meta_data : VerificationMetaData)
    (verification_fn : D → VerificationResult → VerificationResult) : Verification D :=
  { meta_data := meta_data
    status := VerificationStatus.stopped
    verification_fn := verification_fn
    result := VerificationResult.new }

/-- `Verification::run`: sets status `Running`, invokes the verification
function on the result accumulator, then sets status `Finished`.
(The timing and logging side effects are dropped.) -/
def Verification.run {D : Type} (v : Verification D) (directory : D) : Verification D :=
  let v1 := { v with status := VerificationStatus.running }
  { v1 with
    result := v1.verification_fn directory v1.result
    status := VerificationStatus.finished }

/-- `VerificationResultTrait for Verification`, `is_ok`. -/
def Verification.is_ok {D : Type} (v : Verification D) : Option Bool :=
  match v.status with
  | VerificationStatus.stopped => none
  | VerificationStatus.running => none
  | VerificationStatus.finished => v.result.is_ok

/-- `VerificationResultTrait for Verification`, `has_errors`. -/
def Verification.has_errors {D : Type} (v : Verification D) : Option Bool :=
  match v.status with
  | VerificationStatus.stopped => none
  | VerificationStatus.running => none
  | VerificationStatus.finished => v.result.has_errors

/-- `VerificationResultTrait for Verification`, `has_failures`. -/
def Verification.has_failures {D : Type} (v : Verification D) : Option Bool :=
  match v.status with
  | VerificationStatus.stopped => none
  | VerificationStatus.running => none
  | VerificationStatus.finished => v.result.has_failures

/-- C1: while the status is Stopped or Running the classification accessors
`is_ok` / `has_errors` / `has_failures` all return `None`; after `run()`
the status is Finished and the accessors report: `is_ok` true iff no error
and no failure events, `has_errors` true iff at least one error was pushed
(regardless of failures), `has_failures` true iff at least one failure was
pushed; and exactly one of the three terminal classifications Ok /
HasErrors / HasFailures-without-errors holds. -/
theorem verification_run_classification (D : Type) (v : Verification D) (directory : D) :
    ((v.status = VerificationStatus.stopped ∨ v.status = VerificationStatus.running) →
      v.is_ok = none ∧ v.has_errors = none ∧ v.has_failures = none) ∧
    (v.run directory).status = VerificationStatus.finished ∧
    ((v.run directory).is_ok = some true ↔
      ((v.run directory).result.errors = [] ∧ (v.run directory).result.failures = [])) ∧
    ((v.run directory).has_errors = some true ↔ (v.run directory).result.errors ≠ []) ∧
    ((v.run directory).has_failures = some true ↔ (v.run directory).result.failures ≠ []) ∧
    ((v.run directory).is_ok = some true ∨ (v.run directory).has_errors = some true ∨
      ((v.run directory).has_failures = some true ∧ (v.run directory).has_errors = some false)) ∧
    ¬((v.run directory).is_ok = some true ∧ (v.run directory).has_errors = some true) ∧
    ¬((v.run directory).is_ok = some true ∧
      (v.run directory).has_failures = some true ∧ (v.run directory).has_errors = some false) ∧
    ¬((v.run directory).has_errors = some true ∧
      (v.run directory).has_failures = some true ∧ (v.run directory).has_errors = some false) := by
  constructor
  · rintro (h | h) <;>
      simp [Verification.is_ok, Verification.has_errors, Verification.has_failures, h]
  · have hst : (v.run directory).status = VerificationStatus.finished := rfl
    refine ⟨hst, ?_⟩
    set r := (v.run directory).result with hr
    have hok : (v.run directory).is_ok = r.is_ok := by
      simp [Verification.is_ok, hst]
    have herr : (v.run directory).has_errors = r.has_errors := by
      simp [Verification.has_errors, hst]
    have hfail : (v.run directory).has_failures = r.has_failures := by
      simp [Verification.has_failures, hst]
    rw [hok, herr, hfail]
    simp only [VerificationResult.is_ok, VerificationResult.has_errors,
      VerificationResult.has_failures]
    rcases r with ⟨errors, failures⟩
    cases errors <;> cases failures <;> simp

/-- Witness for C1 at a concrete verification: a check that pushes one
failure is classified `has_failures = some true` once finished, and its
accessors are `none` before running. -/
theorem verification_run_classification_witness :
    (Verification.new
        ⟨"01.01", "1", "t", VerificationPeriod.setup, VerificationCategory.completness⟩
        (fun (_ : Unit) r => r.push_failure "f")).is_ok = none ∧
    ((Verification.new
        ⟨"01.01", "1", "t", VerificationPeriod.setup, VerificationCategory.completness⟩
        (fun (_ : Unit) r => r.push_failure "f")).run ()).has_failures = some true := by
  have h := verification_run_classification Unit
    (Verification.new
      ⟨"01.01", "1", "t", VerificationPeriod.setup, VerificationCategory.completness⟩
      (fun (_ : Unit) r => r.push_failure "f")) ()
  refine ⟨(h.1 (Or.inl rfl)).1, ?_⟩
  exact (h.2.2.2.2.1).mpr (by simp [Verification.run, Verification.new,
    VerificationResult.new, VerificationResult.push_failure])

/- ===================== C9 : certificate validity window ================
Embedding of `SigningCertificate::is_valid_time` in
`src/src/crypto_primitives/openssl_wrapper/certificate.rs`.  ASN.1 times
are modelled as integers with the same order. -/

/-- The signing certificate: authority name and the validity window of its
x509 certificate, times modelled as integers. -/
structure SigningCertificate where
  authority : String
  not_before : Int
  not_after : Int

/-- `SigningCertificate::is_valid_time`: `not_before < now && now <= not_after`. -/
def SigningCertificate.is_valid_time (c : SigningCertificate) (now : Int) : Bool :=
  decide (c.not_before < now) && decide (now ≤ c.not_after)

/-- C9: `is_valid_time` is true exactly when `not_before < now` and
`now <= not_after`; the window is open at the lower bound (a certificate
whose `not_before` equals now is rejected) and closed at the upper bound
(a certificate whose `not_after` equals now is accepted). -/
theorem signing_certificate_validity_window (c : SigningCertificate) (now : Int) :
    (c.is_valid_time now = true ↔ (c.not_before < now ∧ now ≤ c.not_after)) ∧
    (SigningCertificate.mk c.authority now c.not_after).is_valid_time now = false ∧
    (SigningCertificate.mk c.authority (now - 1) now).is_valid_time now = true := by
  refine ⟨?_, ?_, ?_⟩
  · simp [SigningCertificate.is_valid_time]
  · simp [SigningCertificate.is_valid_time]
  · simp [SigningCertificate.is_valid_time]

/- ===================== C10 : verification directory views ==============
Embedding of `VerificationDirectory` in `src/src/file_structure/mod.rs`.
The setup and tally directory contents are irrelevant for this claim; they
are modelled by their root location. -/

/-- The setup directory view (`SetupDirectory::new` joins the setup
subdirectory name to the location; the contents are irrelevant here). -/
structure SetupDirectory where
  location : String

/-- `SetupDirectory::new`. -/
def SetupDirectory.new (location : String) : SetupDirectory := ⟨location⟩

/-- The tally directory view. -/
structure TallyDirectory where
  location : String

/-- `TallyDirectory::new`. -/
def TallyDirectory.new (location : String) : TallyDirectory := ⟨location⟩

/-- `VerificationDirectory`: a setup view, and a tally view only when the
directory was created for the tally period. -/
structure VerificationDirectory where
  setup : SetupDirectory
  tally : Option TallyDirectory

/-- `VerificationDirectory::new`: the Setup period leaves `tally = None`,
the Tally period fills both views. -/
def VerificationDirectory.new (period : VerificationPeriod) (location : String) :
    VerificationDirectory :=
  match period with
  | VerificationPeriod.setup =>
    { setup := SetupDirectory.new location, tally := none }
  | VerificationPeriod.tally =>
    { setup := SetupDirectory.new location, tally := some (TallyDirectory.new location) }

/-- `VerificationDirectory::is_setup`: `self.tally.is_none()`. -/
def VerificationDirectory.is_setup (d : VerificationDirectory) : Bool :=
  d.tally.isNone

/-- `unwrap_setup`: always returns the setup view. -/
def VerificationDirectory.unwrap_setup (d : VerificationDirectory) : SetupDirectory :=
  d.setup

/-- `unwrap_tally`: returns the tally view, panicking when the directory
holds none (`panic!("called unwrap_tally() on a Setup value")`). -/
def VerificationDirectory.unwrap_tally (d : VerificationDirectory) : PanicOr TallyDirectory :=
  match d.tally with
  | some t => PanicOr.ok t
  | none => PanicOr.panics

/-- C10: `unwrap_setup` always returns a setup view; `unwrap_tally`
returns a tally view iff the directory was created with the Tally period;
a Setup-period directory has `is_setup = true` and `unwrap_tally` panics
on it. -/
theorem verification_directory_views (period : VerificationPeriod) (location : String) :
    (VerificationDirectory.new period location).unwrap_setup = SetupDirectory.new location ∧
    ((VerificationDirectory.new period location).unwrap_tally ≠ PanicOr.panics ↔
      period = VerificationPeriod.tally) ∧
    (VerificationDirectory.new VerificationPeriod.setup location).is_setup = true ∧
    (VerificationDirectory.new VerificationPeriod.setup location).unwrap_tally =
      PanicOr.panics ∧
    (VerificationDirectory.new VerificationPeriod.tally location).unwrap_tally =
      PanicOr.ok (TallyDirectory.new location) := by
  refine ⟨?_, ?_, rfl, rfl, rfl⟩
  · cases period <;> rfl
  · cases period <;>
      simp [VerificationDirectory.new, VerificationDirectory.unwrap_tally]

/- ===================== C8 : EVotingDecrypt signature stub ==============
Embedding of `VerifiySignatureTrait for EVotingDecrypt` in
`src/src/data_structures/tally/e_voting_decrypt.rs` (the same stub is in
the `lib` variant of the file). -/

/-- Byte array as used by the signature interface. -/
def RustByteArray : Type := List Nat

/-- The `EVotingDecrypt` payload: it records only the path of the XML file
it was loaded from. -/
structure EVotingDecrypt where
  path : String

/-- `EVotingDecrypt::from_xml_file`: always succeeds, keeping the path. -/
def EVotingDecrypt.from_xml_file (p : String) : Except String EVotingDecrypt :=
  Except.ok ⟨p⟩

/-- `EVotingDecrypt::get_signature`: the body is `todo!()`, which panics
unconditionally. -/
def EVotingDecrypt.get_signature (_ : EVotingDecrypt) : PanicOr RustByteArray :=
  PanicOr.panics

/-- C8 (code bug): loading an e-voting-decrypt XML file succeeds, but
calling `get_signature` on the loaded payload panics (`todo!()`), so the
signature-verification interface is not total for this payload. -/
theorem evoting_decrypt_get_signature_panics :
    EVotingDecrypt.from_xml_file "evoting-decrypt_Post_E2E_DEV.xml" =
      Except.ok (EVotingDecrypt.mk "evoting-decrypt_Post_E2E_DEV.xml") ∧
    (EVotingDecrypt.mk "evoting-decrypt_Post_E2E_DEV.xml").get_signature =
      PanicOr.panics := ⟨rfl, rfl⟩

/- ===================== C2 : v0304 CCM key consistency ==================
Embedding of `validate_cc_ccm_pk` and `fn_verification` in
`src/lib/src/verification/setup/consistency/v0304_ccm_election_pk_consistency.rs`. -/

/-- A Schnorr proof as stored in the payloads (`ProofUnderline`). -/
structure ProofUnderline where
  e : Nat
  z : Nat
deriving DecidableEq

/-- `ControlComponentPublicKeys`: per-node CCR and CCM public key vectors
with their Schnorr proofs. -/
structure ControlComponentPublicKeys where
  node_id : Nat
  ccrj_choice_return_codes_encryption_public_key : List Nat
  ccrj_schnorr_proofs : List ProofUnderline
  ccmj_election_public_key : List Nat
  ccmj_schnorr_proofs : List ProofUnderline
deriving DecidableEq

/-- `SetupComponentPublicKeys`: the aggregate of the four per-node keys
plus the electoral board and combined keys. -/
structure SetupComponentPublicKeys where
  combined_control_component_public_keys : List ControlComponentPublicKeys
  electoral_board_public_key : List Nat
  electoral_board_schnorr_proofs : List ProofUnderline
  election_public_key : List Nat
  choice_return_codes_encryption_public_key : List Nat
deriving DecidableEq

/-- `SetupComponentPublicKeysPayload` (signature dropped; it is not read
by the checks embedded here). -/
structure SetupComponentPublicKeysPayload where
  election_event_id : String
  setup_component_public_keys : SetupComponentPublicKeys
deriving DecidableEq

/-- The view of the setup directory used by check v0304: the aggregate
payload, and the per-node `controlComponentPublicKeysPayload.<j>.json`
fetch (`group.get_file_with_number(node_id).get_data()`, projected to its
`control_component_public_keys` field). -/
structure SetupDirectory0304 where
  setup_component_public_keys_payload : Except String SetupComponentPublicKeysPayload
  control_component_public_keys_payload : Nat → Except String ControlComponentPublicKeys

/-- `validate_cc_ccm_pk` of v0304: reads the per-node payload; on a read
error it pushes an error event; otherwise it compares the LENGTH of the
CCM election public key vectors, and then the VALUE of the CCR choice
return codes encryption public key vectors (as written in the source). -/
def validate_cc_ccm_pk (setup_dir : SetupDirectory0304)
    (setup : ControlComponentPublicKeys) (node_id : Nat) : List VerificationEvent :=
  match setup_dir.control_component_public_keys_payload node_id with
  | Except.error _ =>
    [VerificationEvent.error
      ("Cannot read data from file controlComponentPublicKeysPayload." ++
        toString node_id ++ ".json")]
  | Except.ok cc_pk =>
    if setup.ccmj_election_public_key.length ≠ cc_pk.ccmj_election_public_key.length then
      [VerificationEvent.failure
        ("The length of CCM public keys for control component " ++ toString node_id ++
          " are identical from both sources")]
    else if setup.ccrj_choice_return_codes_encryption_public_key ≠
        cc_pk.ccrj_choice_return_codes_encryption_public_key then
      [VerificationEvent.failure
        ("The CCM public keys for control component " ++ toString node_id ++
          " are identical from both sources")]
    else []

/-- `fn_verification` of v0304: reads the aggregate payload and validates
each node of `combined_control_component_public_keys`. -/
def fn_verification_0304 (dir : SetupDirectory0304) : List VerificationEvent :=
  match dir.setup_component_public_keys_payload with
  | Except.error _ =>
    [VerificationEvent.error "Cannot extract setup_component_public_keys_payload"]
  | Except.ok sc_pk =>
    sc_pk.setup_component_public_keys.combined_control_component_public_keys.foldl
      (fun acc node => acc ++ validate_cc_ccm_pk dir node node.node_id) []

/-- Node 1 as recorded in the aggregate: CCM key vector `[7]`. -/
def ccpk0304_setup_node : ControlComponentPublicKeys :=
  { node_id := 1
    ccrj_choice_return_codes_encryption_public_key := [5]
    ccrj_schnorr_proofs := []
    ccmj_election_public_key := [7]
    ccmj_schnorr_proofs := [] }

/-- Node 1 as read from `controlComponentPublicKeysPayload.1.json`: CCM
key vector `[8]`, differing from the aggregate in its single element,
while the CCR vectors agree. -/
def ccpk0304_file_node : ControlComponentPublicKeys :=
  { node_id := 1
    ccrj_choice_return_codes_encryption_public_key := [5]
    ccrj_schnorr_proofs := []
    ccmj_election_public_key := [8]
    ccmj_schnorr_proofs := [] }

/-- Node 1 as read from file for the converse direction: CCM vector equal
to the aggregate, CCR vector differing. -/
def ccpk0304_file_node_ccr : ControlComponentPublicKeys :=
  { node_id := 1
    ccrj_choice_return_codes_encryption_public_key := [6]
    ccrj_schnorr_proofs := []
    ccmj_election_public_key := [7]
    ccmj_schnorr_proofs := [] }

/-- A directory whose aggregate and per-node payloads carry equal-length
but element-wise different CCM key vectors (and equal CCR vectors). -/
def dir0304_ccm_mismatch : SetupDirectory0304 :=
  { setup_component_public_keys_payload :=
      Except.ok
        { election_event_id := "ee1"
          setup_component_public_keys :=
            { combined_control_component_public_keys := [ccpk0304_setup_node]
              electoral_board_public_key := []
              electoral_board_schnorr_proofs := []
              election_public_key := []
              choice_return_codes_encryption_public_key := [] } }
    control_component_public_keys_payload := fun _ => Except.ok ccpk0304_file_node }

/-- A directory whose CCM vectors agree but whose CCR vectors differ. -/
def dir0304_ccr_mismatch : SetupDirectory0304 :=
  { setup_component_public_keys_payload :=
      Except.ok
        { election_event_id := "ee1"
          setup_component_public_keys :=
            { combined_control_component_public_keys := [ccpk0304_setup_node]
              electoral_board_public_key := []
              electoral_board_schnorr_proofs := []
              election_public_key := []
              choice_return_codes_encryption_public_key := [] } }
    control_component_public_keys_payload := fun _ => Except.ok ccpk0304_file_node_ccr }

/-- C2 (code bug, the copy-paste error flagged in the design notes): when
the aggregateʼs CCM election public key vector `[7]` differs element-wise
from the per-node payloadʼs `[8]` (equal lengths, equal CCR vectors), the
check pushes NO event, although the claim requires a failure for that
node; conversely, when the CCM vectors are equal and only the CCR vectors
differ, the check DOES push a failure, although the claim requires none. -/
theorem fn_verification_0304_ccm_copy_paste_bug :
    fn_verification_0304 dir0304_ccm_mismatch = [] ∧
    fn_verification_0304 dir0304_ccr_mismatch =
      [VerificationEvent.failure
        "The CCM public keys for control component 1 are identical from both sources"] ∧
    ccpk0304_setup_node.ccmj_election_public_key ≠
      ccpk0304_file_node.ccmj_election_public_key ∧
    ccpk0304_setup_node.ccmj_election_public_key =
      ccpk0304_file_node_ccr.ccmj_election_public_key := by
  refine ⟨rfl, rfl, ?_, rfl⟩
  simp [ccpk0304_setup_node, ccpk0304_file_node]

/- ===================== C5 : verification suite construction ============
Embedding of `VerificationSuite::new` and `VerificationSuite::exclusion`
in `src/src/verification/suite.rs`.  The list of implemented
verifications of the period (`get_verifications_setup` /
`get_verifications_tally`) is the parameter `all_verifs`; a verification
is represented by its identifying metadata. -/

/-- A catalog entry of the suite: the id and name of an implemented
verification (the verification function itself is irrelevant for the
suite bookkeeping). -/
structure SuiteVerification where
  id : String
  name : String
deriving DecidableEq

/-- `VerificationSuite::new` restricted to its observable fields: retains
the implemented verifications whose id is not excluded, and keeps of the
exclusion list only the ids of implemented verifications:
`all_verifs.retain(|x| !exclusion.contains(x.id()))` and
`excl.retain(|s| all_ids.contains(s))`.  Returns `(list, exclusion)`. -/
def verificationSuite_new (all_verifs : List SuiteVerification)
    (exclusion : List String) : List SuiteVerification × List String :=
  let all_ids := all_verifs.map (fun v => v.id)
  let retained := all_verifs.filter (fun x => !exclusion.contains x.id)
  let excl := exclusion.filter (fun s => all_ids.contains s)
  (retained, excl)

/-- C5: the suite contains exactly the implemented verifications whose id
is not excluded; the reported exclusion list keeps exactly the excluded
ids of implemented verifications, in the order given (a sublist of the
input); and an id matching no implemented verification changes neither the
executed checks nor the report. -/
theorem verification_suite_new_exclusion (all_verifs : List SuiteVerification)
    (exclusion : List String) (u : String) :
    (∀ v : SuiteVerification,
      v ∈ (verificationSuite_new all_verifs exclusion).1 ↔
        (v ∈ all_verifs ∧ v.id ∉ exclusion)) ∧
    (∀ s : String,
      s ∈ (verificationSuite_new all_verifs exclusion).2 ↔
        (s ∈ exclusion ∧ s ∈ all_verifs.map (fun v => v.id))) ∧
    (verificationSuite_new all_verifs exclusion).2.Sublist exclusion ∧
    (u ∉ all_verifs.map (fun v => v.id) →
      verificationSuite_new all_verifs (exclusion.filter (fun s => s ≠ u)) =
        verificationSuite_new all_verifs exclusion) := by
  refine ⟨?_, ?_, ?_, ?_⟩
  · intro v
    simp [verificationSuite_new]
  · intro s
    simp [verificationSuite_new]
  · exact List.filter_sublist exclusion
  · intro hu
    simp only [verificationSuite_new]
    refine Prod.ext ?_ ?_
    · apply List.filter_congr
      intro x hx
      have hxid : x.id ≠ u := fun he => hu (he ▸ List.mem_map.mpr ⟨x, hx, rfl⟩)
      simp [List.contains, List.elem_eq_mem, List.mem_filter, hxid]
    · rw [List.filter_filter]
      apply List.filter_congr
      intro s _
      by_cases hin : s ∈ List.map (fun v => v.id) all_verifs
      · have hsu : s ≠ u := fun he => hu (he ▸ hin)
        simp [List.contains, List.elem_eq_mem, hin, hsu]
      · simp [List.contains, List.elem_eq_mem, hin]

/-- Witness for C5: with implemented checks 01.01 and 03.04, excluding
03.04 together with the unknown id toto retains exactly 01.01 and reports
exactly 03.04. -/
theorem verification_suite_new_exclusion_witness :
    verificationSuite_new
        [SuiteVerification.mk "01.01" "completeness", SuiteVerification.mk "03.04" "ccm"]
        ["03.04", "toto"] =
      ([SuiteVerification.mk "01.01" "completeness"], ["03.04"]) ∧
    verificationSuite_new
        [SuiteVerification.mk "01.01" "completeness", SuiteVerification.mk "03.04" "ccm"]
        (["03.04", "toto"].filter (fun s => s ≠ "no-such-id")) =
      verificationSuite_new
        [SuiteVerification.mk "01.01" "completeness", SuiteVerification.mk "03.04" "ccm"]
        ["03.04", "toto"] := by
  constructor
  · rfl
  · exact (verification_suite_new_exclusion
      [SuiteVerification.mk "01.01" "completeness", SuiteVerification.mk "03.04" "ccm"]
      ["03.04", "toto"] "no-such-id").2.2.2 (by decide)


/-- Auxiliary: a flattened list satisfies `all p` when each of its parts
does. -/
theorem list_flatten_all {α : Type} (p : α → Bool) (L : List (List α))
    (h : ∀ l ∈ L, l.all p = true) : L.flatten.all p = true := by
  induction L with
  | nil => rfl
  | cons hd tl ih =>
    rw [List.flatten_cons, List.all_append]
    simp only [Bool.and_eq_true]
    exact ⟨h hd (List.mem_cons_self hd tl), ih
      (fun l hl => h l (List.mem_cons_of_mem hd hl))⟩

/-- Auxiliary congruence for sums. -/
theorem add_congr {a b c d : Nat} (h₁ : a = b) (h₂ : c = d) : a + c = b + d := by
  rw [h₁, h₂]

/-- Auxiliary: mapping a function of the second component over `enum` is
mapping it over the original list. -/
theorem list_enum_snd_sum {α : Type} (g : α → Nat) (l : List α) :
    (l.enum.map (fun pj => g pj.2)).sum = (l.map g).sum := by
  have h : (fun pj : Nat × α => g pj.2) = g ∘ Prod.snd := rfl
  rw [h, ← List.map_map, List.enum_map_snd]

/- ===================== C4 : integrity check 04.01 ======================
Embedding of `validate_vcs_dir` and `fn_0401_verify_setup_integrity` in
`src/src/verification/setup/integrity/mod.rs`.  The source repeats one
block shape — read the payload, on success push one failure per domain
error, on failure push a single wrong-format failure — once per payload;
that shape is factored into `events_for_payload_0401`. -/

/-- A payload as consumed by integrity check 04.01.  The check only calls
`verifiy_domain()` on it.  Modelled from the spec: domain verification is
the external `VerifyDomainTrait` contract and produces a possibly empty
list of domain errors; the payload is represented by that list. -/
structure Payload0401 where
  verifiy_domain : List String

/-- The VCS directory view used by integrity check 04.01. -/
structure VCSDirectory0401 where
  get_name : String
  setup_component_tally_data_payload : Except String Payload0401
  control_component_code_shares_payload_iter : List (Nat × Except String (List Payload0401))
  setup_component_verification_data_payload_iter : List (Nat × Except String Payload0401)

/-- The setup directory view used by integrity check 04.01. -/
structure SetupDirectory0401 where
  election_event_context_payload : Except String Payload0401
  setup_component_public_keys_payload : Except String Payload0401
  election_event_configuration : Except String Payload0401
  control_component_public_keys_payload_iter : List (Nat × Except String Payload0401)
  vcs_directories : List VCSDirectory0401

/-- One `match` block of 04.01: on a decoded payload push one FAILURE per
domain error (message `okMsg`, cause dropped), on a read/decode error push
one FAILURE with message `errMsg`.  Note both branches of the source call
`create_verification_failure!`. -/
def events_for_payload_0401 (r : Except String Payload0401)
    (okMsg errMsg : String) : List VerificationEvent :=
  match r with
  | Except.ok d => d.verifiy_domain.map (fun _ => VerificationEvent.failure okMsg)
  | Except.error _ => [VerificationEvent.failure errMsg]

/-- The code-shares block of `validate_vcs_dir` in 04.01: a chunk is a
vector of per-node payloads, enumerated with `j`; each domain error of
entry `j` pushes a FAILURE, an unreadable chunk pushes one FAILURE. -/
def events_for_code_shares_0401 (name : String) (i : Nat)
    (r : Except String (List Payload0401)) : List VerificationEvent :=
  match r with
  | Except.ok d =>
    (d.enum.map (fun pj =>
      pj.2.verifiy_domain.map (fun _ =>
        VerificationEvent.failure
          ("Error verifying domain for " ++ name ++
            "/control_component_public_keys_payload." ++ toString i ++
            " at entry " ++ toString pj.1)))).flatten
  | Except.error _ =>
    [VerificationEvent.failure
      (name ++ "/control_component_code_shares_payload." ++ toString i ++
        " has wrong format")]

/-- `validate_vcs_dir` of 04.01. -/
def validate_vcs_dir_0401 (dir : VCSDirectory0401) : List VerificationEvent :=
  events_for_payload_0401 dir.setup_component_tally_data_payload
    ("Error verifying domain for " ++ dir.get_name ++ "/setup_component_tally_data_payload")
    (dir.get_name ++ "/setup_component_tally_data_payload has wrong format") ++
  (dir.control_component_code_shares_payload_iter.map (fun pr =>
    events_for_code_shares_0401 dir.get_name pr.1 pr.2)).flatten ++
  (dir.setup_component_verification_data_payload_iter.map (fun pr =>
    events_for_payload_0401 pr.2
      ("Error verifying domain for " ++ dir.get_name ++
        "/setup_component_verification_data_payload." ++ toString pr.1)
      (dir.get_name ++ "/setup_component_verification_data_payload." ++ toString pr.1 ++
        " has wrong format"))).flatten

/-- `fn_0401_verify_setup_integrity`: domain-verifies every payload of the
setup directory; every event it pushes is built by
`create_verification_failure!`. -/
def fn_0401_verify_setup_integrity (dir : SetupDirectory0401) : List VerificationEvent :=
  events_for_payload_0401 dir.election_event_context_payload
    "Error verifying domain for election_event_context_payload"
    "election_event_context_payload has wrong format" ++
  events_for_payload_0401 dir.setup_component_public_keys_payload
    "Error verifying domain for setup_component_public_keys_payload"
    "setup_component_public_keys_payload has wrong format" ++
  events_for_payload_0401 dir.election_event_configuration
    "Error verifying domain for election_event_configuration"
    "election_event_configuration has wrong format" ++
  (dir.control_component_public_keys_payload_iter.map (fun pr =>
    events_for_payload_0401 pr.2
      ("Error verifying domain for control_component_public_keys_payload." ++ toString pr.1)
      ("control_component_public_keys_payload." ++ toString pr.1 ++
        " has wrong format"))).flatten ++
  (dir.vcs_directories.map validate_vcs_dir_0401).flatten

/-- Expected number of events of 04.01 for one fallible payload load, as
the spec words it: one event when the payload cannot be read or decoded,
otherwise one event per domain error. -/
def spec_payload_event_count (r : Except String Payload0401) : Nat :=
  match r with
  | Except.ok d => d.verifiy_domain.length
  | Except.error _ => 1

/-- Expected number of events for one code-shares chunk (a vector of
per-node payloads). -/
def spec_code_shares_event_count (r : Except String (List Payload0401)) : Nat :=
  match r with
  | Except.ok ds => (ds.map (fun p => p.verifiy_domain.length)).sum
  | Except.error _ => 1

/-- Expected number of events of 04.01 for one VCS directory. -/
def spec_vcs_event_count (v : VCSDirectory0401) : Nat :=
  spec_payload_event_count v.setup_component_tally_data_payload +
  (v.control_component_code_shares_payload_iter.map
    (fun pr => spec_code_shares_event_count pr.2)).sum +
  (v.setup_component_verification_data_payload_iter.map
    (fun pr => spec_payload_event_count pr.2)).sum

/-- Expected number of events of 04.01 for the whole setup directory. -/
def spec_0401_event_count (dir : SetupDirectory0401) : Nat :=
  spec_payload_event_count dir.election_event_context_payload +
  spec_payload_event_count dir.setup_component_public_keys_payload +
  spec_payload_event_count dir.election_event_configuration +
  (dir.control_component_public_keys_payload_iter.map
    (fun pr => spec_payload_event_count pr.2)).sum +
  (dir.vcs_directories.map spec_vcs_event_count).sum

/-- Each payload block of 04.01 emits only failures, exactly
`spec_payload_event_count` many. -/
theorem events_for_payload_0401_spec (r : Except String Payload0401)
    (okMsg errMsg : String) :
    (events_for_payload_0401 r okMsg errMsg).all VerificationEvent.isFailure = true ∧
    (events_for_payload_0401 r okMsg errMsg).length = spec_payload_event_count r := by
  rcases r with e | d <;>
    simp [events_for_payload_0401, spec_payload_event_count,
      VerificationEvent.isFailure, List.all_eq_true]

/-- Each code-shares block of 04.01 emits only failures, exactly
`spec_code_shares_event_count` many. -/
theorem events_for_code_shares_0401_spec (name : String) (i : Nat)
    (r : Except String (List Payload0401)) :
    (events_for_code_shares_0401 name i r).all VerificationEvent.isFailure = true ∧
    (events_for_code_shares_0401 name i r).length = spec_code_shares_event_count r := by
  rcases r with e | d
  · simp [events_for_code_shares_0401, spec_code_shares_event_count,
      VerificationEvent.isFailure]
  · constructor
    · apply list_flatten_all
      intro l hl
      simp only [List.mem_map] at hl
      rcases hl with ⟨pj, _, hl⟩
      subst hl
      simp [List.all_eq_true, VerificationEvent.isFailure]
    · simp only [events_for_code_shares_0401, spec_code_shares_event_count,
        List.length_flatten, List.map_map, Function.comp_def, List.length_map]
      exact list_enum_snd_sum (fun p => p.verifiy_domain.length) d

/-- `validate_vcs_dir` of 04.01 emits only failures, exactly
`spec_vcs_event_count` many. -/
theorem validate_vcs_dir_0401_spec (v : VCSDirectory0401) :
    (validate_vcs_dir_0401 v).all VerificationEvent.isFailure = true ∧
    (validate_vcs_dir_0401 v).length = spec_vcs_event_count v := by
  constructor
  · unfold validate_vcs_dir_0401
    simp only [List.all_append, Bool.and_eq_true]
    refine ⟨⟨?_, ?_⟩, ?_⟩
    · exact (events_for_payload_0401_spec _ _ _).1
    · apply list_flatten_all
      intro l hl
      simp only [List.mem_map] at hl
      rcases hl with ⟨pr, _, hl⟩
      subst hl
      exact (events_for_code_shares_0401_spec _ _ _).1
    · apply list_flatten_all
      intro l hl
      simp only [List.mem_map] at hl
      rcases hl with ⟨pr, _, hl⟩
      subst hl
      exact (events_for_payload_0401_spec _ _ _).1
  · unfold validate_vcs_dir_0401 spec_vcs_event_count
    rw [List.length_append, List.length_append,
      (events_for_payload_0401_spec _ _ _).2,
      List.length_flatten, List.map_map, List.length_flatten, List.map_map]
    refine add_congr (add_congr rfl ?_) ?_
    · refine congrArg List.sum (List.map_congr_left ?_)
      intro pr _
      simpa using (events_for_code_shares_0401_spec v.get_name pr.1 pr.2).2
    · refine congrArg List.sum (List.map_congr_left ?_)
      intro pr _
      simpa using (events_for_payload_0401_spec pr.2 _ _).2

/-- A concrete directory whose election event context payload cannot be
parsed and whose other payloads are absent or clean. -/
def dir0401_parse_error : SetupDirectory0401 :=
  { election_event_context_payload := Except.error "json parse error"
    setup_component_public_keys_payload := Except.ok ⟨[]⟩
    election_event_configuration := Except.ok ⟨[]⟩
    control_component_public_keys_payload_iter := []
    vcs_directories := [] }

/-- C4 counterexample: a payload file whose JSON fails to parse makes
04.01 push a FAILURE event (built by `create_verification_failure!`), not
an Error event — refuting the claim that every exceptional condition
results in an Error event and never a Failure. -/
theorem fn_0401_parse_error_pushes_failure :
    fn_0401_verify_setup_integrity dir0401_parse_error =
      [VerificationEvent.failure "election_event_context_payload has wrong format"] ∧
    VerificationEvent.isFailure
      (VerificationEvent.failure "election_event_context_payload has wrong format") = true :=
  ⟨rfl, rfl⟩

/-- C4 as amended: every event pushed by integrity check 04.01 is a
Failure event — one per payload that cannot be read or decoded, and one
per domain error of each successfully decoded payload (for code-shares
chunks, per entry of the chunk); the check never pushes Error events. -/
theorem fn_0401_all_events_are_failures (dir : SetupDirectory0401) :
    (fn_0401_verify_setup_integrity dir).all VerificationEvent.isFailure = true ∧
    (fn_0401_verify_setup_integrity dir).length = spec_0401_event_count dir := by
  constructor
  · unfold fn_0401_verify_setup_integrity
    simp only [List.all_append, Bool.and_eq_true]
    refine ⟨⟨⟨⟨?_, ?_⟩, ?_⟩, ?_⟩, ?_⟩
    · exact (events_for_payload_0401_spec _ _ _).1
    · exact (events_for_payload_0401_spec _ _ _).1
    · exact (events_for_payload_0401_spec _ _ _).1
    · apply list_flatten_all
      intro l hl
      simp only [List.mem_map] at hl
      rcases hl with ⟨pr, _, hl⟩
      subst hl
      exact (events_for_payload_0401_spec _ _ _).1
    · apply list_flatten_all
      intro l hl
      simp only [List.mem_map] at hl
      rcases hl with ⟨v, _, hl⟩
      subst hl
      exact (validate_vcs_dir_0401_spec v).1
  · unfold fn_0401_verify_setup_integrity spec_0401_event_count
    rw [List.length_append, List.length_append, List.length_append, List.length_append,
      (events_for_payload_0401_spec _ _ _).2,
      (events_for_payload_0401_spec _ _ _).2,
      (events_for_payload_0401_spec _ _ _).2,
      List.length_flatten, List.map_map, List.length_flatten, List.map_map]
    refine add_congr (add_congr rfl ?_) ?_
    · refine congrArg List.sum (List.map_congr_left ?_)
      intro pr _
      simpa using (events_for_payload_0401_spec pr.2 _ _).2
    · refine congrArg List.sum (List.map_congr_left ?_)
      intro v _
      simpa using (validate_vcs_dir_0401_spec v).2

/- ===================== C6 : completeness check 01.01 ===================
Embedding of `validate_vcs_dir` and `fn_0101_verify_setup_completeness` in
`src/src/verification/setup/completness/mod.rs`. -/

/-- A numbered file group, represented by the numbers recovered from the
files matching its pattern.  Modelled from the spec: `file_group.rs` is
not among the provided sources; per the spec, enumeration extracts the
integer between prefix and suffix of each matching filename and yields in
ascending order, visiting every matching file exactly once, so
`get_numbers` is a strictly ascending list. -/
structure FileGroup0101 where
  numbers : List Nat

/-- `FileGroup::get_numbers`. -/
def FileGroup0101.get_numbers (g : FileGroup0101) : List Nat := g.numbers

/-- `FileGroup::has_elements`: some file matches the pattern. -/
def FileGroup0101.has_elements (g : FileGroup0101) : Bool := !g.numbers.isEmpty

/-- The VCS directory view used by completeness check 01.01: file
existence flags and the two chunked groups. -/
structure VCSDirectory0101 where
  setup_component_tally_data_payload_file_exists : Bool
  setup_component_verification_data_payload_group : FileGroup0101
  control_component_code_shares_payload_group : FileGroup0101

/-- The setup directory view used by completeness check 01.01. -/
structure SetupDirectory0101 where
  election_event_context_payload_file_exists : Bool
  setup_component_public_keys_payload_file_exists : Bool
  election_event_configuration_file_exists : Bool
  control_component_public_keys_payload_group : FileGroup0101
  vcs_directories : List VCSDirectory0101

/-- `validate_vcs_dir` of 01.01. -/
def validate_vcs_dir_0101 (dir : VCSDirectory0101) : List VerificationEvent :=
  (if !dir.setup_component_tally_data_payload_file_exists then
    [VerificationEvent.failure "setup_component_tally_data_payload does not exist"]
   else []) ++
  (if !dir.setup_component_verification_data_payload_group.has_elements then
    [VerificationEvent.failure "setup_component_verification_data_payload does not exist"]
   else []) ++
  (if !dir.control_component_code_shares_payload_group.has_elements then
    [VerificationEvent.failure "control_component_code_shares_payload does not exist"]
   else [])

/-- `fn_0101_verify_setup_completeness`.  Note the source compares
`get_numbers()` against the vector `vec![1, 2, 3, 4]`, and the message of
the third branch repeats the second branch text (as in the source). -/
def fn_0101_verify_setup_completeness (dir : SetupDirectory0101) : List VerificationEvent :=
  (if !dir.election_event_context_payload_file_exists then
    [VerificationEvent.failure "election_event_context_payload does not exist"]
   else []) ++
  (if !dir.setup_component_public_keys_payload_file_exists then
    [VerificationEvent.failure "setup_component_public_keys_payload_file does not exist"]
   else []) ++
  (if !dir.election_event_configuration_file_exists then
    [VerificationEvent.failure "setup_component_public_keys_payload_file does not exist"]
   else []) ++
  (if dir.control_component_public_keys_payload_group.get_numbers ≠ [1, 2, 3, 4] then
    [VerificationEvent.failure
      ("control_component_public_keys_payload_group missing. only these parts are present: " ++
        toString dir.control_component_public_keys_payload_group.get_numbers)]
   else []) ++
  (dir.vcs_directories.map validate_vcs_dir_0101).flatten

/-- The events expected of 01.01 for one VCS directory, in the words of
the claim: one failure for the missing tally data file, one for an empty
verification data group, one for an empty code shares group. -/
def spec_vcs_expected_0101 (v : VCSDirectory0101) : List VerificationEvent :=
  (if v.setup_component_tally_data_payload_file_exists then []
   else [VerificationEvent.failure "setup_component_tally_data_payload does not exist"]) ++
  (if v.setup_component_verification_data_payload_group.numbers = [] then
    [VerificationEvent.failure "setup_component_verification_data_payload does not exist"]
   else []) ++
  (if v.control_component_code_shares_payload_group.numbers = [] then
    [VerificationEvent.failure "control_component_code_shares_payload does not exist"]
   else [])

/-- The events expected of 01.01, in the words of the claim: the
control-component group failure is governed by the SET of recovered
numbers being exactly the set 1..4; one failure per missing single file;
per VCS the events of `spec_vcs_expected_0101`. -/
def spec_0101_expected (dir : SetupDirectory0101) : List VerificationEvent :=
  (if dir.election_event_context_payload_file_exists then []
   else [VerificationEvent.failure "election_event_context_payload does not exist"]) ++
  (if dir.setup_component_public_keys_payload_file_exists then []
   else [VerificationEvent.failure "setup_component_public_keys_payload_file does not exist"]) ++
  (if dir.election_event_configuration_file_exists then []
   else [VerificationEvent.failure "setup_component_public_keys_payload_file does not exist"]) ++
  (if dir.control_component_public_keys_payload_group.numbers.toFinset =
      ({1, 2, 3, 4} : Finset Nat) then []
   else
    [VerificationEvent.failure
      ("control_component_public_keys_payload_group missing. only these parts are present: " ++
        toString dir.control_component_public_keys_payload_group.get_numbers)]) ++
  (dir.vcs_directories.map spec_vcs_expected_0101).flatten

/-- A strictly ascending list of naturals is determined by its finset of
elements. -/
theorem sorted_list_eq_of_toFinset_eq (l₁ l₂ : List Nat)
    (h₁ : List.Chain' (· < ·) l₁) (h₂ : List.Chain' (· < ·) l₂)
    (h : l₁.toFinset = l₂.toFinset) : l₁ = l₂ := by
  haveI : IsAntisymm Nat (· < ·) :=
    ⟨fun a b hab hba => absurd hba (not_lt.mpr hab.le)⟩
  have p₁ : l₁.Pairwise (· < ·) := List.chain'_iff_pairwise.mp h₁
  have p₂ : l₂.Pairwise (· < ·) := List.chain'_iff_pairwise.mp h₂
  have n₁ : l₁.Nodup := p₁.imp (fun hab => Nat.ne_of_lt hab)
  have n₂ : l₂.Nodup := p₂.imp (fun hab => Nat.ne_of_lt hab)
  exact List.eq_of_perm_of_sorted
    (List.perm_of_nodup_nodup_toFinset_eq n₁ n₂ h) p₁ p₂

/-- `validate_vcs_dir` of 01.01 produces exactly the claimed per-VCS
events. -/
theorem validate_vcs_dir_0101_eq_spec (v : VCSDirectory0101) :
    validate_vcs_dir_0101 v = spec_vcs_expected_0101 v := by
  unfold validate_vcs_dir_0101 spec_vcs_expected_0101 FileGroup0101.has_elements
  cases hv : v.setup_component_tally_data_payload_file_exists <;>
    cases h₁ : v.setup_component_verification_data_payload_group.numbers <;>
      cases h₂ : v.control_component_code_shares_payload_group.numbers <;>
        simp [hv, h₁, h₂]

/-- C6: when the recovered numbers of the control-component group are
strictly ascending (the file-group enumeration contract), completeness
check 01.01 produces exactly: a failure for the control-component group
iff the set of recovered numbers is not exactly the set 1..4, one failure
per missing required single file, and per VCS one failure per missing
tally data file / empty verification data group / empty code shares
group; on a complete snapshot it pushes no events. -/
theorem fn_0101_completeness_spec (dir : SetupDirectory0101)
    (hsorted : List.Chain' (· < ·)
      dir.control_component_public_keys_payload_group.numbers) :
    fn_0101_verify_setup_completeness dir = spec_0101_expected dir ∧
    ((dir.election_event_context_payload_file_exists = true ∧
      dir.setup_component_public_keys_payload_file_exists = true ∧
      dir.election_event_configuration_file_exists = true ∧
      dir.control_component_public_keys_payload_group.numbers.toFinset =
        ({1, 2, 3, 4} : Finset Nat) ∧
      ∀ v ∈ dir.vcs_directories,
        v.setup_component_tally_data_payload_file_exists = true ∧
        v.setup_component_verification_data_payload_group.numbers ≠ [] ∧
        v.control_component_code_shares_payload_group.numbers ≠ []) →
      fn_0101_verify_setup_completeness dir = []) := by
  have hkey : dir.control_component_public_keys_payload_group.numbers.toFinset =
      ({1, 2, 3, 4} : Finset Nat) ↔
      dir.control_component_public_keys_payload_group.numbers = [1, 2, 3, 4] := by
    constructor
    · intro h
      refine sorted_list_eq_of_toFinset_eq _ _ hsorted (by simp [List.chain'_cons]) ?_
      rw [h]
      decide
    · intro h
      rw [h]
      decide
  have hmain : fn_0101_verify_setup_completeness dir = spec_0101_expected dir := by
    unfold fn_0101_verify_setup_completeness spec_0101_expected
    refine congrArg₂ (· ++ ·) (congrArg₂ (· ++ ·) (congrArg₂ (· ++ ·)
      (congrArg₂ (· ++ ·) ?_ ?_) ?_) ?_) ?_
    · cases dir.election_event_context_payload_file_exists <;> simp
    · cases dir.setup_component_public_keys_payload_file_exists <;> simp
    · cases dir.election_event_configuration_file_exists <;> simp
    · by_cases hlist : dir.control_component_public_keys_payload_group.get_numbers =
        [1, 2, 3, 4]
      · rw [if_neg (by simpa using hlist), if_pos (hkey.mpr hlist)]
      · rw [if_pos (by simpa using hlist), if_neg (fun hc => hlist (hkey.mp hc))]
    · exact congrArg List.flatten
        (List.map_congr_left (fun v _ => validate_vcs_dir_0101_eq_spec v))
  refine ⟨hmain, ?_⟩
  intro hcomplete
  rcases hcomplete with ⟨h₁, h₂, h₃, h₄, h₅⟩
  rw [hmain]
  unfold spec_0101_expected
  rw [if_pos h₁, if_pos h₂, if_pos h₃, if_pos h₄]
  simp only [List.nil_append, List.append_nil]
  rw [List.flatten_eq_nil_iff]
  intro l hl
  rcases List.mem_map.mp hl with ⟨v, hv, hlv⟩
  rcases h₅ v hv with ⟨hva, hvb, hvc⟩
  subst hlv
  unfold spec_vcs_expected_0101
  rw [if_pos hva, if_neg hvb, if_neg hvc]
  rfl

/-- Witness for C6 at a concrete directory: all single files present, all
VCS content present, but the control-component group numbers are only
1..3; the check reports exactly the group failure naming the present
parts. -/
theorem fn_0101_completeness_spec_witness :
    fn_0101_verify_setup_completeness
        (SetupDirectory0101.mk true true true (FileGroup0101.mk [1, 2, 3])
          [VCSDirectory0101.mk true (FileGroup0101.mk [0]) (FileGroup0101.mk [0])]) =
      [VerificationEvent.failure
        ("control_component_public_keys_payload_group missing. only these parts are present: " ++
          toString [1, 2, 3])] := by
  rw [(fn_0101_completeness_spec
    (SetupDirectory0101.mk true true true (FileGroup0101.mk [1, 2, 3])
      [VCSDirectory0101.mk true (FileGroup0101.mk [0]) (FileGroup0101.mk [0])])
    (by simp [List.chain'_cons])).1]
  unfold spec_0101_expected spec_vcs_expected_0101
  rw [if_neg (by decide :
    ¬ (FileGroup0101.mk [1, 2, 3]).numbers.toFinset = ({1, 2, 3, 4} : Finset Nat))]
  simp [FileGroup0101.get_numbers]

/- ===================== C3 : check 305, CCR combined-key law ============
Embedding of `fn_verification_305` in
`src/src/verification/setup/consistency/verify_choice_return_codes_public_key_consistency.rs`.
The indexing `e.ccrj_choice_return_codes_encryption_public_key[i]` of the
source panics when out of bounds; the embedding returns `PanicOr`. -/

/-- The encryption group (p, q, g). -/
structure EncryptionGroup where
  p : Nat
  q : Nat
  g : Nat
deriving DecidableEq

/-- `EncryptionParametersPayload`, restricted to the field the check
reads. -/
structure EncryptionParametersPayload where
  encryption_group : EncryptionGroup
deriving DecidableEq

/-- The setup directory view used by check 305. -/
structure SetupDirectory305 where
  encryption_parameters_payload : Except String EncryptionParametersPayload
  setup_component_public_keys_payload : Except String SetupComponentPublicKeysPayload

/-- The fold
`.iter().map(|e| &e.ccrj_choice_return_codes_encryption_public_key[i]).fold(one, |acc, x| acc * x)`
of the source: panics at the first node whose key vector is shorter than
`i + 1`. -/
def ccr_product_at (nodes : List ControlComponentPublicKeys) (i : Nat) : PanicOr Nat :=
  nodes.foldl
    (fun acc node =>
      match acc, node.ccrj_choice_return_codes_encryption_public_key[i]? with
      | PanicOr.ok b, some x => PanicOr.ok (b * x)
      | _, _ => PanicOr.panics)
    (PanicOr.ok 1)

/-- The product of the per-node CCR key entries at position `i`, as the
spec words it (total, with out-of-range entries read as 0 — the theorems
only use it under the length hypothesis where no default is taken). -/
def spec_ccr_product (nodes : List ControlComponentPublicKeys) (i : Nat) : Nat :=
  nodes.foldl
    (fun acc node => acc * node.ccrj_choice_return_codes_encryption_public_key.getD i 0) 1

/-- The loop of `fn_verification_305` over the enumerated combined key:
for each position, a failure when the reduced product differs. -/
def ccr_failures_305 (p : Nat) (nodes : List ControlComponentPublicKeys) :
    List (Nat × Nat) → PanicOr (List String)
  | [] => PanicOr.ok []
  | (i, ccr) :: rest =>
    match ccr_product_at nodes i, ccr_failures_305 p nodes rest with
    | PanicOr.ok prod, PanicOr.ok tail =>
      PanicOr.ok
        ((if prod % p ≠ ccr then
            ["The ccr at position " ++ toString i ++ " is not the product of the cc ccr"]
          else []) ++ tail)
    | _, _ => PanicOr.panics

/-- `fn_verification_305`: returns the pair (errors, failures) of the
source; error events only for unreadable payloads, and otherwise one
failure per position whose combined key is not the reduced product. -/
def fn_verification_305 (dir : SetupDirectory305) :
    PanicOr (List String × List String) :=
  match dir.encryption_parameters_payload with
  | Except.error _ =>
    PanicOr.ok (["Cannot extract encryption_parameters_payload"], [])
  | Except.ok eg =>
    match dir.setup_component_public_keys_payload with
    | Except.error _ =>
      PanicOr.ok (["Cannot extract setup_component_public_keys_payload"], [])
    | Except.ok sc_pk =>
      match ccr_failures_305 eg.encryption_group.p
          sc_pk.setup_component_public_keys.combined_control_component_public_keys
          sc_pk.setup_component_public_keys.choice_return_codes_encryption_public_key.enum with
      | PanicOr.ok failures => PanicOr.ok ([], failures)
      | PanicOr.panics => PanicOr.panics

/-- Under the length hypothesis the panicking fold computes the total
product. -/
theorem ccr_product_at_ok_aux (i : Nat) (nodes : List ControlComponentPublicKeys)
    (h : ∀ node ∈ nodes, i < node.ccrj_choice_return_codes_encryption_public_key.length) :
    ∀ a : Nat,
      nodes.foldl
        (fun acc node =>
          match acc, node.ccrj_choice_return_codes_encryption_public_key[i]? with
          | PanicOr.ok b, some x => PanicOr.ok (b * x)
          | _, _ => PanicOr.panics)
        (PanicOr.ok a) =
      PanicOr.ok (nodes.foldl
        (fun acc node => acc * node.ccrj_choice_return_codes_encryption_public_key.getD i 0)
        a) := by
  induction nodes with
  | nil => intro a; rfl
  | cons hd tl ih =>
    intro a
    have hhd : i < hd.ccrj_choice_return_codes_encryption_public_key.length :=
      h hd (List.mem_cons_self hd tl)
    rw [List.foldl_cons, List.foldl_cons]
    have hget : hd.ccrj_choice_return_codes_encryption_public_key[i]? =
        some hd.ccrj_choice_return_codes_encryption_public_key[i] :=
      List.getElem?_eq_getElem hhd
    have hgetD : hd.ccrj_choice_return_codes_encryption_public_key.getD i 0 =
        hd.ccrj_choice_return_codes_encryption_public_key[i] := by
      rw [List.getD_eq_getElem?_getD, hget]
      rfl
    rw [hget, hgetD]
    exact ih (fun n hn => h n (List.mem_cons_of_mem hd hn)) _

/-- `ccr_product_at` under the length hypothesis. -/
theorem ccr_product_at_ok (nodes : List ControlComponentPublicKeys) (i : Nat)
    (h : ∀ node ∈ nodes, i < node.ccrj_choice_return_codes_encryption_public_key.length) :
    ccr_product_at nodes i = PanicOr.ok (spec_ccr_product nodes i) :=
  ccr_product_at_ok_aux i nodes h 1

/-- The failure loop of 305 collects exactly the positions where the
reduced product differs from the stored combined key. -/
theorem ccr_failures_305_ok (p : Nat) (nodes : List ControlComponentPublicKeys)
    (pairs : List (Nat × Nat))
    (h : ∀ pr ∈ pairs, ∀ node ∈ nodes,
      pr.1 < node.ccrj_choice_return_codes_encryption_public_key.length) :
    ccr_failures_305 p nodes pairs =
      PanicOr.ok
        ((pairs.filter (fun pr => spec_ccr_product nodes pr.1 % p ≠ pr.2)).map
          (fun pr =>
            "The ccr at position " ++ toString pr.1 ++ " is not the product of the cc ccr")) := by
  induction pairs with
  | nil => rfl
  | cons hd tl ih =>
    obtain ⟨i, c⟩ := hd
    have hi : ∀ node ∈ nodes, i < node.ccrj_choice_return_codes_encryption_public_key.length :=
      h (i, c) (List.mem_cons_self _ _)
    have htl := ih (fun pr hpr node hn => h pr (List.mem_cons_of_mem _ hpr) node hn)
    rw [ccr_failures_305, ccr_product_at_ok nodes i hi, htl]
    dsimp only
    by_cases hc : spec_ccr_product nodes i % p ≠ c
    · rw [if_pos hc, List.filter_cons_of_pos (by simpa using hc), List.map_cons]
      rfl
    · rw [if_neg hc, List.filter_cons_of_neg (by simpa using hc)]
      rfl

/-- C3: when the two payloads load successfully and every per-node CCR
vector is at least as long as the combined key (the well-formed shape),
`fn_verification_305` pushes no errors and pushes a failure at position
`i` exactly when the combined key entry differs from the product of the
per-node entries at `i` reduced modulo p; when every position satisfies
the modular-product equation the failure list is empty. -/
theorem fn_verification_305_spec (dir : SetupDirectory305)
    (eg : EncryptionParametersPayload) (sc_pk : SetupComponentPublicKeysPayload)
    (heg : dir.encryption_parameters_payload = Except.ok eg)
    (hpk : dir.setup_component_public_keys_payload = Except.ok sc_pk)
    (hlen : ∀ node ∈ sc_pk.setup_component_public_keys.combined_control_component_public_keys,
      sc_pk.setup_component_public_keys.choice_return_codes_encryption_public_key.length ≤
        node.ccrj_choice_return_codes_encryption_public_key.length) :
    fn_verification_305 dir =
      PanicOr.ok ([],
        (sc_pk.setup_component_public_keys.choice_return_codes_encryption_public_key.enum.filter
            (fun pr =>
              spec_ccr_product
                  sc_pk.setup_component_public_keys.combined_control_component_public_keys
                  pr.1 %
                eg.encryption_group.p ≠ pr.2)).map
          (fun pr =>
            "The ccr at position " ++ toString pr.1 ++ " is not the product of the cc ccr")) := by
  have hpairs : ∀ pr ∈
      sc_pk.setup_component_public_keys.choice_return_codes_encryption_public_key.enum,
      ∀ node ∈ sc_pk.setup_component_public_keys.combined_control_component_public_keys,
        pr.1 < node.ccrj_choice_return_codes_encryption_public_key.length := by
    intro pr hpr node hn
    have hidx := List.mem_enum_iff_getElem?.mp hpr
    have hlt : pr.1 <
        sc_pk.setup_component_public_keys.choice_return_codes_encryption_public_key.length :=
      (List.getElem?_eq_some.mp hidx).1
    exact lt_of_lt_of_le hlt (hlen node hn)
  unfold fn_verification_305
  rw [heg, hpk]
  dsimp only
  rw [ccr_failures_305_ok eg.encryption_group.p
    sc_pk.setup_component_public_keys.combined_control_component_public_keys
    sc_pk.setup_component_public_keys.choice_return_codes_encryption_public_key.enum hpairs]

/-- Witness for C3 at concrete data: p = 23, four nodes with CCR entries
2, 3, 5, 7 at position 0, product 210 ≡ 3 (mod 23); a combined key [4]
yields exactly one failure at position 0, a combined key [3] yields no
events. -/
theorem fn_verification_305_spec_witness :
    fn_verification_305
        (SetupDirectory305.mk (Except.ok ⟨⟨23, 11, 2⟩⟩)
          (Except.ok ⟨"ee", ⟨[⟨1, [2], [], [], []⟩, ⟨2, [3], [], [], []⟩,
            ⟨3, [5], [], [], []⟩, ⟨4, [7], [], [], []⟩], [], [], [], [4]⟩⟩)) =
      PanicOr.ok ([], ["The ccr at position 0 is not the product of the cc ccr"]) ∧
    fn_verification_305
        (SetupDirectory305.mk (Except.ok ⟨⟨23, 11, 2⟩⟩)
          (Except.ok ⟨"ee", ⟨[⟨1, [2], [], [], []⟩, ⟨2, [3], [], [], []⟩,
            ⟨3, [5], [], [], []⟩, ⟨4, [7], [], [], []⟩], [], [], [], [3]⟩⟩)) =
      PanicOr.ok ([], []) := by
  constructor
  · rw [fn_verification_305_spec
      (SetupDirectory305.mk (Except.ok ⟨⟨23, 11, 2⟩⟩)
        (Except.ok ⟨"ee", ⟨[⟨1, [2], [], [], []⟩, ⟨2, [3], [], [], []⟩,
          ⟨3, [5], [], [], []⟩, ⟨4, [7], [], [], []⟩], [], [], [], [4]⟩⟩))
      ⟨⟨23, 11, 2⟩⟩
      ⟨"ee", ⟨[⟨1, [2], [], [], []⟩, ⟨2, [3], [], [], []⟩,
        ⟨3, [5], [], [], []⟩, ⟨4, [7], [], [], []⟩], [], [], [], [4]⟩⟩
      rfl rfl (by intro node hn; fin_cases hn <;> simp)]
    rfl
  · rw [fn_verification_305_spec
      (SetupDirectory305.mk (Except.ok ⟨⟨23, 11, 2⟩⟩)
        (Except.ok ⟨"ee", ⟨[⟨1, [2], [], [], []⟩, ⟨2, [3], [], [], []⟩,
          ⟨3, [5], [], [], []⟩, ⟨4, [7], [], [], []⟩], [], [], [], [3]⟩⟩))
      ⟨⟨23, 11, 2⟩⟩
      ⟨"ee", ⟨[⟨1, [2], [], [], []⟩, ⟨2, [3], [], [], []⟩,
        ⟨3, [5], [], [], []⟩, ⟨4, [7], [], [], []⟩], [], [], [], [3]⟩⟩
      rfl rfl (by intro node hn; fin_cases hn <;> simp)]
    rfl

/- ===================== C7 : check 03.09, election event id =============
Embedding of `test_election_event_id`, `test_ee_id_for_vcs_dir` and
`fn_verification` in
`src/src/verification/setup/consistency/v0309_election_event_id_consistency.rs`.
Payload structures keep the fields the check reads; unread vector payload
contents are elided. -/

/-- `SetupComponentTallyDataPayload` (per VCS). -/
structure SetupComponentTallyDataPayload where
  election_event_id : String
  verification_card_set_id : String
  ballot_box_default_title : String
  encryption_group : EncryptionGroup
  verification_card_ids : List String
  verification_card_public_keys : List (List Nat)
deriving DecidableEq

/-- One inner element of `ControlComponentCodeSharesPayload` (one node of
one chunk). -/
structure ControlComponentCodeSharesPayloadInner where
  election_event_id : String
  verification_card_set_id : String
  chunk_id : Nat
  node_id : Nat
deriving DecidableEq

/-- `SetupComponentVerificationDataPayload` (per VCS, per chunk). -/
structure SetupComponentVerificationDataPayload where
  election_event_id : String
  verification_card_set_id : String
  chunk_id : Nat
deriving DecidableEq

/-- `ControlComponentPublicKeysPayload`. -/
structure ControlComponentPublicKeysPayload where
  encryption_group : EncryptionGroup
  election_event_id : String
  control_component_public_keys : ControlComponentPublicKeys
deriving DecidableEq

/-- `ElectionEventContext` restricted to the field the check reads. -/
structure ElectionEventContext where
  election_event_id : String
deriving DecidableEq

/-- `ElectionEventContextPayload`. -/
structure ElectionEventContextPayload where
  election_event_context : ElectionEventContext
deriving DecidableEq

/-- The VCS directory view used by consistency check 03.09. -/
structure VCSDirectory0309 where
  get_name : String
  setup_component_tally_data_payload : Except String SetupComponentTallyDataPayload
  control_component_code_shares_payload_iter :
    List (Nat × Except String (List ControlComponentCodeSharesPayloadInner))
  setup_component_verification_data_payload_iter :
    List (Nat × Except String SetupComponentVerificationDataPayload)

/-- The setup directory view used by consistency check 03.09. -/
structure SetupDirectory0309 where
  election_event_context_payload : Except String ElectionEventContextPayload
  setup_component_public_keys_payload : Except String SetupComponentPublicKeysPayload
  control_component_public_keys_payload_iter :
    List (Nat × Except String ControlComponentPublicKeysPayload)
  vcs_directories : List VCSDirectory0309

/-- `test_election_event_id`: one failure naming the payload when the id
differs from the reference. -/
def test_election_event_id (ee_id expected : String) (name : String) :
    List VerificationEvent :=
  if ee_id ≠ expected then
    [VerificationEvent.failure ("Election Event ID not equal in " ++ name)]
  else []

/-- `test_ee_id_for_vcs_dir` of 03.09.  The quirks of the source are kept:
the underscore before the dot in the code-shares wrong-format message, and
the swapped arguments (chunk number first) in the verification-data
payload name. -/
def test_ee_id_for_vcs_dir (dir : VCSDirectory0309) (expected : String) :
    List VerificationEvent :=
  (match dir.setup_component_tally_data_payload with
   | Except.ok p =>
     test_election_event_id p.election_event_id expected
       (dir.get_name ++ "/setup_component_tally_data_payload")
   | Except.error _ =>
     [VerificationEvent.error
       (dir.get_name ++ "/setup_component_tally_data_payload has wrong format")]) ++
  (dir.control_component_code_shares_payload_iter.map (fun pr =>
     match pr.2 with
     | Except.error _ =>
       [VerificationEvent.error
         (dir.get_name ++ "/control_component_code_shares_payload_." ++ toString pr.1 ++
           " has wrong format")]
     | Except.ok cc =>
       (cc.map (fun p =>
         test_election_event_id p.election_event_id expected
           (dir.get_name ++ "/control_component_code_shares_payload." ++ toString pr.1 ++
             "_chunk" ++ toString p.chunk_id))).flatten)).flatten ++
  (dir.setup_component_verification_data_payload_iter.map (fun pr =>
     match pr.2 with
     | Except.error _ =>
       [VerificationEvent.error
         (dir.get_name ++ "/setup_component_verification_data_payload." ++ toString pr.1 ++
           " has wrong format")]
     | Except.ok s =>
       test_election_event_id s.election_event_id expected
         (toString pr.1 ++ "/setup_component_verification_data_payload." ++
           dir.get_name))).flatten

/-- `fn_verification` of 03.09: the election event id of
`electionEventContextPayload` is the reference; every other payload is
compared against it, unreadable payloads yield error events. -/
def fn_verification_0309 (dir : SetupDirectory0309) : List VerificationEvent :=
  match dir.election_event_context_payload with
  | Except.error _ =>
    [VerificationEvent.error "Cannot extract election_event_context_payload"]
  | Except.ok ctx =>
    (match dir.setup_component_public_keys_payload with
     | Except.ok p =>
       test_election_event_id p.election_event_id
         ctx.election_event_context.election_event_id "setup_component_public_keys_payload"
     | Except.error _ =>
       [VerificationEvent.error "election_event_context_payload has wrong format"]) ++
    (dir.control_component_public_keys_payload_iter.map (fun pr =>
       match pr.2 with
       | Except.error _ =>
         [VerificationEvent.error
           ("control_component_public_keys_payload." ++ toString pr.1 ++ " has wrong format")]
       | Except.ok cc =>
         test_election_event_id cc.election_event_id
           ctx.election_event_context.election_event_id
           ("control_component_public_keys_payload." ++ toString pr.1))).flatten ++
    (dir.vcs_directories.map (fun v =>
       test_ee_id_for_vcs_dir v ctx.election_event_context.election_event_id)).flatten

/-- The failures the claim expects of 03.09 for one VCS directory: for
each successfully loaded payload, exactly one failure naming it when its
election event id differs from the reference; unreadable payloads
contribute no failure. -/
def spec_expected_failures_vcs_0309 (v : VCSDirectory0309) (ref : String) :
    List VerificationEvent :=
  (match v.setup_component_tally_data_payload with
   | Except.ok p =>
     test_election_event_id p.election_event_id ref
       (v.get_name ++ "/setup_component_tally_data_payload")
   | Except.error _ => []) ++
  (v.control_component_code_shares_payload_iter.map (fun pr =>
     match pr.2 with
     | Except.error _ => []
     | Except.ok cc =>
       (cc.map (fun p =>
         test_election_event_id p.election_event_id ref
           (v.get_name ++ "/control_component_code_shares_payload." ++ toString pr.1 ++
             "_chunk" ++ toString p.chunk_id))).flatten)).flatten ++
  (v.setup_component_verification_data_payload_iter.map (fun pr =>
     match pr.2 with
     | Except.error _ => []
     | Except.ok s =>
       test_election_event_id s.election_event_id ref
         (toString pr.1 ++ "/setup_component_verification_data_payload." ++
           v.get_name))).flatten

/-- The failures the claim expects of 03.09 for the whole snapshot. -/
def spec_expected_failures_0309 (dir : SetupDirectory0309) (ref : String) :
    List VerificationEvent :=
  (match dir.setup_component_public_keys_payload with
   | Except.ok p =>
     test_election_event_id p.election_event_id ref "setup_component_public_keys_payload"
   | Except.error _ => []) ++
  (dir.control_component_public_keys_payload_iter.map (fun pr =>
     match pr.2 with
     | Except.error _ => []
     | Except.ok cc =>
       test_election_event_id cc.election_event_id ref
         ("control_component_public_keys_payload." ++ toString pr.1))).flatten ++
  (dir.vcs_directories.map (fun v => spec_expected_failures_vcs_0309 v ref)).flatten

/-- `test_election_event_id` produces only failures. -/
theorem filter_test_election_event_id (ee_id expected name : String) :
    (test_election_event_id ee_id expected name).filter
      (fun e => e.isFailure) = test_election_event_id ee_id expected name := by
  unfold test_election_event_id
  by_cases h : ee_id ≠ expected
  · rw [if_pos h]
    rfl
  · rw [if_neg h]
    rfl

/-- The failures of `test_ee_id_for_vcs_dir` are exactly the expected
per-VCS failures. -/
theorem test_ee_id_for_vcs_dir_failures (v : VCSDirectory0309) (ref : String) :
    (test_ee_id_for_vcs_dir v ref).filter (fun e => e.isFailure) =
      spec_expected_failures_vcs_0309 v ref := by
  unfold test_ee_id_for_vcs_dir spec_expected_failures_vcs_0309
  rw [List.filter_append, List.filter_append, List.filter_flatten, List.filter_flatten,
    List.map_map, List.map_map]
  refine congrArg₂ (· ++ ·) (congrArg₂ (· ++ ·) ?_ ?_) ?_
  · rcases v.setup_component_tally_data_payload with e | p
    · rfl
    · exact filter_test_election_event_id _ _ _
  · refine congrArg List.flatten (List.map_congr_left ?_)
    intro pr _
    obtain ⟨i, r⟩ := pr
    simp only [Function.comp_apply]
    rcases r with e | cc
    · rfl
    · rw [List.filter_flatten, List.map_map]
      refine congrArg List.flatten (List.map_congr_left ?_)
      intro p _
      simp only [Function.comp_apply]
      exact filter_test_election_event_id _ _ _
  · refine congrArg List.flatten (List.map_congr_left ?_)
    intro pr _
    obtain ⟨i, r⟩ := pr
    simp only [Function.comp_apply]
    rcases r with e | s
    · rfl
    · exact filter_test_election_event_id _ _ _

/-- C7: when `electionEventContextPayload` loads with reference id `ref`,
the failures pushed by 03.09 are exactly one per successfully loaded
payload whose election event id differs from `ref`, each naming that
payload; unreadable payloads contribute error events only. -/
theorem fn_verification_0309_failures (dir : SetupDirectory0309)
    (ctx : ElectionEventContextPayload)
    (hctx : dir.election_event_context_payload = Except.ok ctx) :
    (fn_verification_0309 dir).filter (fun e => e.isFailure) =
      spec_expected_failures_0309 dir ctx.election_event_context.election_event_id := by
  unfold fn_verification_0309 spec_expected_failures_0309
  rw [hctx]
  dsimp only
  rw [List.filter_append, List.filter_append, List.filter_flatten, List.filter_flatten,
    List.map_map, List.map_map]
  refine congrArg₂ (· ++ ·) (congrArg₂ (· ++ ·) ?_ ?_) ?_
  · rcases dir.setup_component_public_keys_payload with e | p
    · rfl
    · exact filter_test_election_event_id _ _ _
  · refine congrArg List.flatten (List.map_congr_left ?_)
    intro pr _
    obtain ⟨i, r⟩ := pr
    simp only [Function.comp_apply]
    rcases r with e | cc
    · rfl
    · exact filter_test_election_event_id _ _ _
  · refine congrArg List.flatten (List.map_congr_left ?_)
    intro v _
    simp only [Function.comp_apply]
    exact test_ee_id_for_vcs_dir_failures v ctx.election_event_context.election_event_id

/-- The S4 scenario directory: two VCS directories, all payloads load,
only the tally data of vcs2 carries a different election event id. -/
def dir0309_s4 : SetupDirectory0309 :=
  { election_event_context_payload := Except.ok ⟨⟨"ee1"⟩⟩
    setup_component_public_keys_payload :=
      Except.ok ⟨"ee1", ⟨[], [], [], [], []⟩⟩
    control_component_public_keys_payload_iter :=
      [(1, Except.ok ⟨⟨23, 11, 2⟩, "ee1", ⟨1, [], [], [], []⟩⟩)]
    vcs_directories :=
      [{ get_name := "vcs1"
         setup_component_tally_data_payload :=
           Except.ok ⟨"ee1", "vcs1", "bb", ⟨23, 11, 2⟩, [], []⟩
         control_component_code_shares_payload_iter :=
           [(0, Except.ok [⟨"ee1", "vcs1", 0, 1⟩])]
         setup_component_verification_data_payload_iter :=
           [(0, Except.ok ⟨"ee1", "vcs1", 0⟩)] },
       { get_name := "vcs2"
         setup_component_tally_data_payload :=
           Except.ok ⟨"eeX", "vcs2", "bb", ⟨23, 11, 2⟩, [], []⟩
         control_component_code_shares_payload_iter :=
           [(0, Except.ok [⟨"ee1", "vcs2", 0, 1⟩])]
         setup_component_verification_data_payload_iter :=
           [(0, Except.ok ⟨"ee1", "vcs2", 0⟩)] }] }

/-- Witness for C7, the S4 scenario: with every payload loaded and only
the vcs2 tally data id differing, 03.09 emits exactly one failure and it
names that VCS. -/
theorem fn_verification_0309_failures_witness :
    (fn_verification_0309 dir0309_s4).filter (fun e => e.isFailure) =
      [VerificationEvent.failure
        "Election Event ID not equal in vcs2/setup_component_tally_data_payload"] := by
  rw [fn_verification_0309_failures dir0309_s4 ⟨⟨"ee1"⟩⟩ rfl]
  rfl
